import Mathlib

/-
A shallow embedding of src/c_src/matter_nif.cpp (the Matterlix NIF layer).

Modelling decisions, each tied to the source:
- Erlang pids are abstracted as natural numbers; contexts (the
  MATTER_CONTEXT_RESOURCE resources) live in an association list keyed by
  allocation order, mirroring BEAM resource objects.  Resource allocation
  and message-environment allocation are modelled as succeeding, so the
  alloc-failure early returns are not represented.
- The MATTER_SDK_ENABLED compilation paths are modelled.  Calls into the
  Matter SDK (server init and shutdown, attribute writes, the scan and
  connect completion callbacks) are recorded as trace events, newest first,
  in the sdkCalls field; messages sent with enif_send are recorded, newest
  first, in the msgs field.
- The global g_wifi_driver object (stored network slot plus the two pending
  callback pointers) is part of the global state, as in the source, where
  every context's wifi_driver field points at the same global.
- Completion callback pointers are abstracted as opaque numeric tokens.
- Machine integers: endpoint, cluster and attribute ids arrive as Erlang
  integers (unbounded Int); enif_get_uint succeeds exactly on values in
  the interval from 0 to 2 to the 32, as for a 32-bit unsigned int.  The
  uint8_t cast in nif_set_attribute is taken modulo 256.
-/

set_option maxHeartbeats 1000000

namespace MatterNif

/-- Erlang terms as seen by the NIF argument decoders: atoms carrying their
text, integers (unbounded, as Erlang integers are bignums), binaries, and a
catch-all constructor for every other term shape. -/
inductive ErlTerm where
  | atom (a : String)
  | int (n : Int)
  | binary (bs : List Nat)
  | other
deriving DecidableEq

/-- Error reason atoms returned by the NIF functions in error tuples. -/
inductive NifErr where
  | invalid_context
  | not_initialized
  | invalid_args
  | invalid_endpoint_id
  | read_failed
deriving DecidableEq

/-- CHIP error codes returned by the NervesWiFiDriver callbacks. -/
inductive ChipErr where
  | incorrectState
deriving DecidableEq

/-- Equality of NIF call results is decidable (the toolchain ships no
DecidableEq instance for Except), so concrete runs can be settled by
decide. -/
instance instDecEqExcept {ε α : Type} [DecidableEq ε] [DecidableEq α] :
    DecidableEq (Except ε α) := fun a b =>
  match a, b with
  | Except.ok x, Except.ok y =>
    if h : x = y then isTrue (by rw [h]) else isFalse (fun hc => by cases hc; exact h rfl)
  | Except.error x, Except.error y =>
    if h : x = y then isTrue (by rw [h]) else isFalse (fun hc => by cases hc; exact h rfl)
  | Except.ok _, Except.error _ => isFalse (fun hc => by cases hc)
  | Except.error _, Except.ok _ => isFalse (fun hc => by cases hc)

/-- ZCL attribute type tag for booleans. -/
def ZCL_BOOLEAN_ATTRIBUTE_TYPE : Nat := 0x10

/-- ZCL attribute type tag for 8-bit unsigned integers. -/
def ZCL_INT8U_ATTRIBUTE_TYPE : Nat := 0x20

/-- ZCL attribute type tag for 16-bit unsigned integers. -/
def ZCL_INT16U_ATTRIBUTE_TYPE : Nat := 0x21

/-- Messages sent to a listener pid with enif_send. -/
inductive Msg where
  | scan_networks (pid : Nat)
  | connect_network (pid : Nat) (ssid credentials : List Nat)
  | add_network (pid : Nat) (ssid credentials : List Nat)
  | attribute_changed (pid endpoint cluster attrId ty : Nat) (value : ErlTerm)
deriving DecidableEq

/-- Calls made into the Matter SDK collaborator.  stackShutdown is the
Server Shutdown plus PlatformMgr Shutdown pair performed by the resource
destructor; serverShutdown is the Server Shutdown performed by
nif_stop_server; writeAttribute records emberAfWriteAttribute with the
single byte actually passed; scanOnFinished and connectOnResult record the
completion callbacks firing with success mapped from status equal zero. -/
inductive SdkCall where
  | stackShutdown
  | serverInit
  | startEventLoopTask
  | serverShutdown
  | writeAttribute (endpoint cluster attrId ty byteVal : Nat)
  | scanOnFinished (token : Nat) (success : Bool)
  | connectOnResult (token : Nat) (success : Bool)
deriving DecidableEq

/-- The NervesWiFiDriver StoredNetwork slot.  The ssid and credentials
lists hold the bytes actually stored (at most 32 and 64 bytes, the
capacities of the fixed C arrays). -/
structure StoredNetwork where
  ssid : List Nat
  credentials : List Nat
  configured : Bool
deriving DecidableEq

/-- The MatterContext resource struct. -/
structure MatterContext where
  initialized : Bool
  is_owner : Bool
  listener_pid : Nat
  has_listener : Bool
  monitor_active : Bool
deriving DecidableEq

/-- The MatterSingleton stored in priv_data.  owner_context holds the key
of the owning context; as in the source it is not cleared when the owner
is destroyed without shutting the SDK down, so it may dangle. -/
structure MatterSingleton where
  owner_context : Option Nat
  ref_count : Int
  sdk_initialized : Bool
deriving DecidableEq

/-- The whole mutable state of the NIF layer: singleton, live context
resources (association list from allocation id to context), the fresh-id
counter, the global wifi driver state, and the two event traces. -/
structure NifState where
  singleton : MatterSingleton
  contexts : List (Nat × MatterContext)
  nextId : Nat
  network : StoredNetwork
  mpScanCallback : Option Nat
  mpConnectCallback : Option Nat
  msgs : List Msg
  sdkCalls : List SdkCall
deriving DecidableEq

/-- A context fresh from memset zero in nif_init. -/
def zeroContext : MatterContext :=
  { initialized := false, is_owner := false, listener_pid := 0,
    has_listener := false, monitor_active := false }

/-- The state right after nif_load: fresh singleton, no contexts, the
zero-initialized global wifi driver, empty traces. -/
def initState : NifState :=
  { singleton := { owner_context := none, ref_count := 0, sdk_initialized := false },
    contexts := [],
    nextId := 0,
    network := { ssid := [], credentials := [], configured := false },
    mpScanCallback := none,
    mpConnectCallback := none,
    msgs := [],
    sdkCalls := [] }

/-- Resolve a context resource handle (enif_get_resource). -/
def findCtx : List (Nat × MatterContext) → Nat → Option MatterContext
  | [], _ => none
  | (j, c) :: rest, i => if j = i then some c else findCtx rest i

/-- Mutate the context resource with the given key in place. -/
def setCtx : List (Nat × MatterContext) → Nat → MatterContext → List (Nat × MatterContext)
  | [], _, _ => []
  | (j, c) :: rest, i, c2 => if j = i then (i, c2) :: rest else (j, c) :: setCtx rest i c2

/-- Free the context resource with the given key. -/
def removeCtx : List (Nat × MatterContext) → Nat → List (Nat × MatterContext)
  | [], _ => []
  | (j, c) :: rest, i => if j = i then rest else (j, c) :: removeCtx rest i

/-- enif_get_uint: succeeds exactly on Erlang integers representable as a
32-bit unsigned int. -/
def enif_get_uint (n : Int) : Option Nat :=
  if 0 ≤ n ∧ n < 4294967296 then some n.toNat else none

/-- enif_get_uint applied to a general term: fails on non-integers. -/
def enif_get_uint_term : ErlTerm → Option Nat
  | ErlTerm.int n => enif_get_uint n
  | _ => none

/-- get_listener_info: reads the owner context's has_listener flag and
listener_pid under the global mutex.  A dangling owner pointer (owner
destroyed without SDK shutdown) would be a use-after-free in C; it is
modelled as finding no listener. -/
def get_listener_info (s : NifState) : Option Nat :=
  match s.singleton.owner_context with
  | none => none
  | some o =>
    match findCtx s.contexts o with
    | none => none
    | some c => if c.has_listener then some c.listener_pid else none

/-- nif_init: allocates a context.  If the singleton reports the SDK
initialized with a live owner pointer, the new context shares the stack
(non-owner) and the reference count is incremented; otherwise the context
becomes owner, the chip stack is initialized (modelled as succeeding) and
the singleton is set to ref_count one.  Returns the new context id. -/
def nif_init (s : NifState) : NifState × Except NifErr Nat :=
  let i := s.nextId
  if s.singleton.sdk_initialized && s.singleton.owner_context.isSome then
    ({ s with
        contexts := (i, { zeroContext with initialized := true, is_owner := false }) :: s.contexts,
        nextId := i + 1,
        singleton := { s.singleton with ref_count := s.singleton.ref_count + 1 } },
     Except.ok i)
  else
    ({ s with
        contexts := (i, { zeroContext with initialized := true, is_owner := true }) :: s.contexts,
        nextId := i + 1,
        singleton := { owner_context := some i, ref_count := 1, sdk_initialized := true } },
     Except.ok i)

/-- matter_context_destructor: decrements ref_count; if the dying context
is the owner, the count dropped to zero or below and the context was
initialized, shuts the SDK down and clears sdk_initialized and
owner_context.  The freed resource is removed from the context table.
Called on a key with no live resource it is a no-op (in C the BEAM only
invokes the destructor once per resource). -/
def matter_context_destructor (s : NifState) (i : Nat) : NifState :=
  match findCtx s.contexts i with
  | none => s
  | some ctx =>
    let rc := s.singleton.ref_count - 1
    let s1 := { s with singleton := { s.singleton with ref_count := rc } }
    let s2 :=
      if ctx.is_owner && decide (rc ≤ 0) && ctx.initialized then
        { s1 with
            sdkCalls := SdkCall.stackShutdown :: s1.sdkCalls,
            singleton := { s1.singleton with sdk_initialized := false, owner_context := none } }
      else s1
    { s2 with contexts := removeCtx s2.contexts i }

/-- nif_register_callback: records the calling pid on the context the call
went through (not on the singleton), sets has_listener and clears
monitor_active. -/
def nif_register_callback (s : NifState) (i : Nat) (callerPid : Nat) :
    NifState × Except NifErr Unit :=
  match findCtx s.contexts i with
  | none => (s, Except.error NifErr.invalid_context)
  | some ctx =>
    let ctx2 : MatterContext :=
      { ctx with listener_pid := callerPid, has_listener := true, monitor_active := false }
    ({ s with contexts := setCtx s.contexts i ctx2 }, Except.ok ())

/-- nif_start_server: requires a live context with initialized set, then
calls Server Init and StartEventLoopTask. -/
def nif_start_server (s : NifState) (i : Nat) : NifState × Except NifErr Unit :=
  match findCtx s.contexts i with
  | none => (s, Except.error NifErr.invalid_context)
  | some ctx =>
    if !ctx.initialized then (s, Except.error NifErr.not_initialized)
    else
      ({ s with sdkCalls := SdkCall.startEventLoopTask :: SdkCall.serverInit :: s.sdkCalls },
       Except.ok ())

/-- nif_stop_server: requires only a live context (no initialized check in
the source) and calls Server Shutdown unconditionally. -/
def nif_stop_server (s : NifState) (i : Nat) : NifState × Except NifErr Unit :=
  match findCtx s.contexts i with
  | none => (s, Except.error NifErr.invalid_context)
  | some _ =>
    ({ s with sdkCalls := SdkCall.serverShutdown :: s.sdkCalls }, Except.ok ())

/-- NervesWiFiDriver ScanNetworks: with no listener fails with
CHIP_ERROR_INCORRECT_STATE and changes nothing; otherwise overwrites
mpScanCallback with the supplied callback token and sends the
scan_networks message. -/
def ScanNetworks (s : NifState) (token : Nat) : NifState × Except ChipErr Unit :=
  match get_listener_info s with
  | none => (s, Except.error ChipErr.incorrectState)
  | some pid =>
    ({ s with
        mpScanCallback := some token,
        msgs := Msg.scan_networks pid :: s.msgs },
     Except.ok ())

/-- NervesWiFiDriver ConnectNetwork: with no listener fails with
CHIP_ERROR_INCORRECT_STATE and changes nothing; otherwise overwrites
mpConnectCallback and sends connect_network carrying the argument ssid and
the credentials currently stored in the network slot. -/
def ConnectNetwork (s : NifState) (ssid : List Nat) (token : Nat) :
    NifState × Except ChipErr Unit :=
  match get_listener_info s with
  | none => (s, Except.error ChipErr.incorrectState)
  | some pid =>
    ({ s with
        mpConnectCallback := some token,
        msgs := Msg.connect_network pid ssid s.network.credentials :: s.msgs },
     Except.ok ())

/-- NervesWiFiDriver AddOrUpdateNetwork: stores the ssid and credentials
into the fixed 32 and 64 byte buffers (std min plus memcpy, i.e. List.take),
marks the slot configured, then, if a listener exists, sends add_network
carrying the full untruncated spans.  Always returns CHIP_NO_ERROR. -/
def AddOrUpdateNetwork (s : NifState) (ssid credentials : List Nat) :
    NifState × Except ChipErr Unit :=
  let s1 := { s with network :=
      { ssid := ssid.take 32, credentials := credentials.take 64, configured := true } }
  match get_listener_info s1 with
  | none => (s1, Except.ok ())
  | some pid =>
    ({ s1 with msgs := Msg.add_network pid ssid credentials :: s1.msgs }, Except.ok ())

/-- nif_set_attribute: resolves the context, decodes the three ids with
enif_get_uint (invalid_args on failure), rejects endpoints above 0xFFFF,
then writes the value: an atom that fits the 16-byte buffer is written as
a ZCL boolean equal to whether the atom is exactly true (byte one) or not
(byte zero); otherwise an integer representable as a 32-bit unsigned int
is cast to uint8_t (modulo 256) and written as ZCL int8u; any other value
is ignored.  Returns ok in all three value cases. -/
def nif_set_attribute (s : NifState) (i : Nat)
    (endpoint_id cluster_id attribute_id : Int) (value : ErlTerm) :
    NifState × Except NifErr Unit :=
  match findCtx s.contexts i with
  | none => (s, Except.error NifErr.invalid_context)
  | some _ =>
    match enif_get_uint endpoint_id, enif_get_uint cluster_id, enif_get_uint attribute_id with
    | some ep, some cl, some aid =>
      if ep > 0xFFFF then (s, Except.error NifErr.invalid_endpoint_id)
      else
        match value with
        | ErlTerm.atom a =>
          if a.length ≤ 15 then
            let w := SdkCall.writeAttribute ep cl aid ZCL_BOOLEAN_ATTRIBUTE_TYPE
              (if a = "true" then 1 else 0)
            ({ s with sdkCalls := w :: s.sdkCalls }, Except.ok ())
          else (s, Except.ok ())
        | v =>
          match enif_get_uint_term v with
          | some n =>
            let w := SdkCall.writeAttribute ep cl aid ZCL_INT8U_ATTRIBUTE_TYPE (n % 256)
            ({ s with sdkCalls := w :: s.sdkCalls }, Except.ok ())
          | none => (s, Except.ok ())
    | _, _, _ => (s, Except.error NifErr.invalid_args)

/-- nif_get_attribute: resolves the context, decodes the ids, rejects
endpoints above 0xFFFF, then consults the external attribute store (a
parameter returning the type tag and buffer bytes, or none for a
non-success Ember status which maps to read_failed).  Booleans, int8u and
int16u (two bytes copied host little-endian) are decoded; any other type
falls through to the placeholder integer zero. -/
def nif_get_attribute (store : Nat → Nat → Nat → Option (Nat × List Nat))
    (s : NifState) (i : Nat) (endpoint_id cluster_id attribute_id : Int) :
    Except NifErr ErlTerm :=
  match findCtx s.contexts i with
  | none => Except.error NifErr.invalid_context
  | some _ =>
    match enif_get_uint endpoint_id, enif_get_uint cluster_id, enif_get_uint attribute_id with
    | some ep, some cl, some aid =>
      if ep > 0xFFFF then Except.error NifErr.invalid_endpoint_id
      else
        match store ep cl aid with
        | none => Except.error NifErr.read_failed
        | some (ty, bytes) =>
          if ty = ZCL_BOOLEAN_ATTRIBUTE_TYPE then
            Except.ok (if bytes.getD 0 0 ≠ 0 then ErlTerm.atom "true" else ErlTerm.atom "false")
          else if ty = ZCL_INT8U_ATTRIBUTE_TYPE then
            Except.ok (ErlTerm.int (bytes.getD 0 0))
          else if ty = ZCL_INT16U_ATTRIBUTE_TYPE then
            Except.ok (ErlTerm.int (bytes.getD 0 0 + 256 * bytes.getD 1 0))
          else
            Except.ok (ErlTerm.int 0)
    | _, _, _ => Except.error NifErr.invalid_args

/-- nif_wifi_scan_result: resolves the context; if a scan callback is
pending, fires OnFinished once with success iff status is zero and clears
the pointer; with no pending callback it is a silent no-op.  Returns ok in
both cases. -/
def nif_wifi_scan_result (s : NifState) (i : Nat) (status : Int) :
    NifState × Except NifErr Unit :=
  match findCtx s.contexts i with
  | none => (s, Except.error NifErr.invalid_context)
  | some _ =>
    match s.mpScanCallback with
    | some t =>
      ({ s with
          sdkCalls := SdkCall.scanOnFinished t (status == 0) :: s.sdkCalls,
          mpScanCallback := none },
       Except.ok ())
    | none => (s, Except.ok ())

/-- nif_wifi_connect_result: the connect-side twin of
nif_wifi_scan_result, firing OnResult on the pending connect callback. -/
def nif_wifi_connect_result (s : NifState) (i : Nat) (status : Int) :
    NifState × Except NifErr Unit :=
  match findCtx s.contexts i with
  | none => (s, Except.error NifErr.invalid_context)
  | some _ =>
    match s.mpConnectCallback with
    | some t =>
      ({ s with
          sdkCalls := SdkCall.connectOnResult t (status == 0) :: s.sdkCalls,
          mpConnectCallback := none },
       Except.ok ())
    | none => (s, Except.ok ())

/-- MatterPostAttributeChangeCallback: with no listener the event is
dropped without error (the C function is void); otherwise the raw bytes
are decoded by type tag (boolean nonzero byte, int8u single byte, int16u
two bytes copied little-endian when size is at least two, otherwise the
nil placeholder atom) and the attribute_changed message is sent. -/
def MatterPostAttributeChangeCallback (s : NifState)
    (endpoint cluster attrId ty size : Nat) (bytes : List Nat) : NifState :=
  match get_listener_info s with
  | none => s
  | some pid =>
    let val : ErlTerm :=
      if ty = ZCL_BOOLEAN_ATTRIBUTE_TYPE then
        (if bytes.getD 0 0 ≠ 0 then ErlTerm.atom "true" else ErlTerm.atom "false")
      else if ty = ZCL_INT8U_ATTRIBUTE_TYPE then
        ErlTerm.int (bytes.getD 0 0)
      else if ty = ZCL_INT16U_ATTRIBUTE_TYPE ∧ 2 ≤ size then
        ErlTerm.int (bytes.getD 0 0 + 256 * bytes.getD 1 0)
      else ErlTerm.atom "nil"
    { s with msgs := Msg.attribute_changed pid endpoint cluster attrId ty val :: s.msgs }

/-- A lifecycle operation: acquiring a handle via nif_init or the BEAM
garbage collector releasing one, running matter_context_destructor. -/
inductive LifeOp where
  | acquire
  | release (i : Nat)
deriving DecidableEq

/-- Run a sequence of lifecycle operations. -/
def runOps (s : NifState) : List LifeOp → NifState
  | [] => s
  | LifeOp.acquire :: rest => runOps (nif_init s).1 rest
  | LifeOp.release i :: rest => runOps (matter_context_destructor s i) rest

/-- A sequence is valid when every release names a context live at that
point: each handle is released at most once and only after its acquire,
matching the BEAM calling each resource destructor exactly once. -/
def validOps (s : NifState) : List LifeOp → Bool
  | [] => true
  | LifeOp.acquire :: rest => validOps (nif_init s).1 rest
  | LifeOp.release i :: rest =>
    (findCtx s.contexts i).isSome && validOps (matter_context_destructor s i) rest

end MatterNif

namespace MatterNif

/-! Helper lemmas about the context table. -/

theorem findCtx_setCtx_self (l : List (Nat × MatterContext)) (i : Nat)
    (c c2 : MatterContext) (h : findCtx l i = some c) :
    findCtx (setCtx l i c2) i = some c2 := by
  induction l with
  | nil => simp [findCtx] at h
  | cons hd tl ih =>
    obtain ⟨j, d⟩ := hd
    by_cases hj : j = i
    · subst hj
      simp [findCtx, setCtx]
    · simp only [findCtx, setCtx, if_neg hj] at h ⊢
      exact ih h

theorem findCtx_setCtx_ne (l : List (Nat × MatterContext)) (i j : Nat)
    (c2 : MatterContext) (h : j ≠ i) :
    findCtx (setCtx l i c2) j = findCtx l j := by
  induction l with
  | nil => rfl
  | cons hd tl ih =>
    obtain ⟨k, d⟩ := hd
    by_cases hk : k = i
    · subst hk
      simp only [setCtx, if_pos rfl, findCtx, if_neg (Ne.symm h)]
    · simp only [setCtx, if_neg hk, findCtx]
      by_cases hkj : k = j
      · simp [hkj]
      · simp [hkj, ih]

theorem removeCtx_length (l : List (Nat × MatterContext)) (i : Nat)
    (h : (findCtx l i).isSome) : (removeCtx l i).length + 1 = l.length := by
  induction l with
  | nil => simp [findCtx] at h
  | cons hd tl ih =>
    obtain ⟨k, d⟩ := hd
    by_cases hk : k = i
    · simp [removeCtx, hk]
    · simp only [findCtx, if_neg hk] at h
      simp only [removeCtx, if_neg hk, List.length_cons]
      rw [← ih h]

theorem get_listener_info_congr (s s2 : NifState)
    (h1 : s2.singleton = s.singleton) (h2 : s2.contexts = s.contexts) :
    get_listener_info s2 = get_listener_info s := by
  unfold get_listener_info
  rw [h1, h2]

/-! The singleton lifecycle invariant.  The reference count always equals
the number of live context resources (hence never goes negative), a
positive count implies the stack is marked initialized, and an initialized
stack has a non-null owner pointer.  The converse direction of the middle
fact, sdk_initialized implies a positive count, is NOT an invariant of the
code: see the counterexample for claim C2. -/

def LifeInv (s : NifState) : Prop :=
  s.singleton.ref_count = (s.contexts.length : Int) ∧
  (0 < s.singleton.ref_count → s.singleton.sdk_initialized = true) ∧
  (s.singleton.sdk_initialized = true → s.singleton.owner_context.isSome = true)

theorem lifeInv_initState : LifeInv initState := by
  refine ⟨rfl, ?_, ?_⟩ <;> intro h <;> simp [initState] at h

theorem lifeInv_nif_init (s : NifState) (h : LifeInv s) : LifeInv (nif_init s).1 := by
  obtain ⟨h1, h2, h3⟩ := h
  unfold nif_init
  by_cases hb : (s.singleton.sdk_initialized && s.singleton.owner_context.isSome) = true
  · rw [if_pos hb]
    obtain ⟨hbi, hbo⟩ := Bool.and_eq_true .. |>.mp hb
    refine ⟨?_, fun _ => hbi, fun _ => hbo⟩
    simp only [List.length_cons]
    push_cast
    omega
  · rw [if_neg hb]
    have hlen : s.contexts.length = 0 := by
      by_cases hi : s.singleton.sdk_initialized = true
      · have ho := h3 hi
        exact absurd (by simp [hi, ho]) hb
      · have : ¬ 0 < s.singleton.ref_count := fun hpos => hi (h2 hpos)
        omega
    refine ⟨?_, fun _ => rfl, fun _ => rfl⟩
    simp only [List.length_cons, hlen]
    rfl

theorem lifeInv_destructor (s : NifState) (i : Nat) (h : LifeInv s) :
    LifeInv (matter_context_destructor s i) := by
  obtain ⟨h1, h2, h3⟩ := h
  unfold matter_context_destructor
  cases hf : findCtx s.contexts i with
  | none => exact ⟨h1, h2, h3⟩
  | some ctx =>
    have hsome : (findCtx s.contexts i).isSome := by rw [hf]; rfl
    have hlen := removeCtx_length s.contexts i hsome
    dsimp only
    by_cases hb : (ctx.is_owner && decide (s.singleton.ref_count - 1 ≤ 0) && ctx.initialized) = true
    · rw [if_pos hb]
      have hle : s.singleton.ref_count - 1 ≤ 0 := by
        have := (Bool.and_eq_true .. |>.mp (Bool.and_eq_true .. |>.mp hb).1).2
        exact of_decide_eq_true this
      show s.singleton.ref_count - 1 = ((removeCtx s.contexts i).length : Int) ∧
        (0 < s.singleton.ref_count - 1 → (false : Bool) = true) ∧
        ((false : Bool) = true → (none : Option Nat).isSome = true)
      exact ⟨by omega, fun hpos => absurd hpos (by omega), fun hff => by cases hff⟩
    · rw [if_neg hb]
      show s.singleton.ref_count - 1 = ((removeCtx s.contexts i).length : Int) ∧
        (0 < s.singleton.ref_count - 1 → s.singleton.sdk_initialized = true) ∧
        (s.singleton.sdk_initialized = true → s.singleton.owner_context.isSome = true)
      exact ⟨by omega, fun hpos => h2 (by omega), h3⟩

theorem lifeInv_runOps (ops : List LifeOp) : ∀ s : NifState, LifeInv s → LifeInv (runOps s ops) := by
  induction ops with
  | nil => exact fun s h => h
  | cons op rest ih =>
    intro s h
    cases op with
    | acquire => exact ih _ (lifeInv_nif_init s h)
    | release i => exact ih _ (lifeInv_destructor s i h)

end MatterNif

namespace MatterNif

/-! Further listener-lookup helpers. -/

theorem get_listener_info_eq (s : NifState) (o : Nat) (c : MatterContext)
    (ho : s.singleton.owner_context = some o)
    (hc : findCtx s.contexts o = some c) :
    get_listener_info s = if c.has_listener then some c.listener_pid else none := by
  unfold get_listener_info
  simp only [ho, hc]

theorem get_listener_info_network (s : NifState) (n : StoredNetwork) :
    get_listener_info { s with network := n } = get_listener_info s :=
  get_listener_info_congr _ s rfl rfl

theorem get_listener_info_contexts (s : NifState) (l : List (Nat × MatterContext))
    (o : Nat) (c : MatterContext)
    (ho : s.singleton.owner_context = some o) (hc : findCtx l o = some c) :
    get_listener_info { s with contexts := l }
      = if c.has_listener then some c.listener_pid else none := by
  unfold get_listener_info
  simp only [ho, hc]

/-! Claim C1. -/

/-- State after the owner handle (id 0) registers pid 1 as listener. -/
def c1AfterOwnerReg : NifState := (nif_register_callback (nif_init initState).1 0 1).1

/-- State after a second handle (id 1, non-owner) then registers pid 2. -/
def c1AfterSecondReg : NifState := (nif_register_callback (nif_init c1AfterOwnerReg).1 1 2).1

/-- Claim C1 counterexample: handle 0 (the owner) registers pid 1, then
handle 1 (a non-owner) registers pid 2, which is the most recent
registration.  The next scan event is nevertheless delivered to pid 1 and
never to pid 2: registration stores the pid on the calling handle, and
get_listener_info consults only the owner context, so the claimed
singleton-scoped displacement does not happen for non-owner handles. -/
theorem C1_counterexample :
    (nif_register_callback (nif_init c1AfterOwnerReg).1 1 2).2 = Except.ok () ∧
    (ScanNetworks c1AfterSecondReg 5).2 = Except.ok () ∧
    (ScanNetworks c1AfterSecondReg 5).1.msgs = [Msg.scan_networks 1] ∧
    Msg.scan_networks 2 ∉ (ScanNetworks c1AfterSecondReg 5).1.msgs := by
  decide

/-- Claim C1 amended: the listener slot is handle-scoped, and delivery is
owner-scoped.  A registration through any handle other than the owner
leaves event delivery unchanged; a registration through the owner handle
displaces the owner's previous listener; and every event emission
(scan_networks, connect_network, add_network, attribute_changed) is
delivered to the pid currently registered on the owner handle. -/
theorem C1_amended (s : NifState) (i o p q token : Nat)
    (ssid creds bytes : List Nat) (ep cl aid ty sz : Nat) (c : MatterContext)
    (ho : s.singleton.owner_context = some o)
    (hc : findCtx s.contexts o = some c)
    (hq : get_listener_info s = some q) :
    (i ≠ o → get_listener_info (nif_register_callback s i p).1 = get_listener_info s) ∧
    get_listener_info (nif_register_callback s o p).1 = some p ∧
    (ScanNetworks s token).1.msgs = Msg.scan_networks q :: s.msgs ∧
    (ConnectNetwork s ssid token).1.msgs
      = Msg.connect_network q ssid s.network.credentials :: s.msgs ∧
    (AddOrUpdateNetwork s ssid creds).1.msgs = Msg.add_network q ssid creds :: s.msgs ∧
    (∃ v, (MatterPostAttributeChangeCallback s ep cl aid ty sz bytes).msgs
       = Msg.attribute_changed q ep cl aid ty v :: s.msgs) := by
  refine ⟨?_, ?_, ?_, ?_, ?_, ?_⟩
  · intro hio
    cases hfi : findCtx s.contexts i with
    | none => simp [nif_register_callback, hfi]
    | some ctx =>
      have h2 : findCtx (setCtx s.contexts i
          { ctx with listener_pid := p, has_listener := true, monitor_active := false }) o
          = some c := by
        rw [findCtx_setCtx_ne s.contexts i o _ (Ne.symm hio)]
        exact hc
      simp only [nif_register_callback, hfi]
      rw [get_listener_info_contexts s _ o c ho h2, get_listener_info_eq s o c ho hc]
  · have h2 := findCtx_setCtx_self s.contexts o c
      { c with listener_pid := p, has_listener := true, monitor_active := false } hc
    simp only [nif_register_callback, hc]
    rw [get_listener_info_contexts s _ o _ ho h2]
    simp
  · simp [ScanNetworks, hq]
  · simp [ConnectNetwork, hq]
  · simp [AddOrUpdateNetwork, get_listener_info_network, hq]
  · unfold MatterPostAttributeChangeCallback
    rw [hq]
    exact ⟨_, rfl⟩

/-- The owner context record used by the shared witness state: an
initialized owner with pid 9 registered as listener. -/
def listenerCtx : MatterContext :=
  { initialized := true, is_owner := true, listener_pid := 9,
    has_listener := true, monitor_active := false }

/-- Shared concrete state: one owner context (id 0) with pid 9 registered
as listener, matching the singleton fields nif_init would produce. -/
def listenerState : NifState :=
  { initState with
      singleton := { owner_context := some 0, ref_count := 1, sdk_initialized := true },
      contexts := [(0, listenerCtx)] }

theorem C1_amended_witness :
    listenerState.singleton.owner_context = some 0 ∧
    findCtx listenerState.contexts 0 = some listenerCtx ∧
    get_listener_info listenerState = some 9 ∧
    ((1 ≠ 0 → get_listener_info (nif_register_callback listenerState 1 5).1
        = get_listener_info listenerState) ∧
     get_listener_info (nif_register_callback listenerState 0 5).1 = some 5 ∧
     (ScanNetworks listenerState 3).1.msgs = Msg.scan_networks 9 :: listenerState.msgs ∧
     (ConnectNetwork listenerState [1] 3).1.msgs
       = Msg.connect_network 9 [1] listenerState.network.credentials :: listenerState.msgs ∧
     (AddOrUpdateNetwork listenerState [1] [2]).1.msgs
       = Msg.add_network 9 [1] [2] :: listenerState.msgs ∧
     (∃ v, (MatterPostAttributeChangeCallback listenerState 1 2 3 16 1 [1]).msgs
        = Msg.attribute_changed 9 1 2 3 16 v :: listenerState.msgs)) :=
  ⟨by decide, by decide, by decide,
   C1_amended listenerState 1 0 5 9 3 [1] [2] [1] 1 2 3 16 1 listenerCtx
     (by decide) (by decide) (by decide)⟩

/-! Claim C2. -/

/-- Claim C2 counterexample: the valid sequence acquire A (owner, id 0),
acquire B (non-owner, id 1), release A, release B never releases a handle
twice, yet ends with ref_count zero while sdk_initialized is still true:
the non-owner's final release does not shut the stack down, so the claimed
equivalence between a positive count and an initialized stack fails when
the owner releases before a non-owner. -/
theorem C2_counterexample :
    validOps initState
      [LifeOp.acquire, LifeOp.acquire, LifeOp.release 0, LifeOp.release 1] = true ∧
    (runOps initState
      [LifeOp.acquire, LifeOp.acquire, LifeOp.release 0, LifeOp.release 1]).singleton.ref_count
        = 0 ∧
    (runOps initState
      [LifeOp.acquire, LifeOp.acquire, LifeOp.release 0, LifeOp.release 1]).singleton.sdk_initialized
        = true := by
  decide

/-- Claim C2 amended: for every sequence of acquire and release operations
in which no handle is released more than once, after every operation the
reference count is non-negative and a positive reference count implies the
stack is marked initialized.  The converse implication claimed by the spec
does not hold in general: when the owner releases before a non-owner the
count can reach zero with sdk_initialized still true. -/
theorem C2_amended (pre suff : List LifeOp)
    (hv : validOps initState (pre ++ suff) = true) :
    0 ≤ (runOps initState pre).singleton.ref_count ∧
    (0 < (runOps initState pre).singleton.ref_count →
      (runOps initState pre).singleton.sdk_initialized = true) := by
  have h := lifeInv_runOps pre initState lifeInv_initState
  obtain ⟨h1, h2, _⟩ := h
  refine ⟨by omega, h2⟩

theorem C2_amended_witness :
    validOps initState ([LifeOp.acquire] ++ [LifeOp.release 0]) = true ∧
    (0 ≤ (runOps initState [LifeOp.acquire]).singleton.ref_count ∧
     (0 < (runOps initState [LifeOp.acquire]).singleton.ref_count →
       (runOps initState [LifeOp.acquire]).singleton.sdk_initialized = true)) :=
  ⟨by decide, C2_amended [LifeOp.acquire] [LifeOp.release 0] (by decide)⟩

/-! Claim C3. -/

/-- A live context whose initialized flag is false. -/
def c3UninitState : NifState := { initState with contexts := [(0, zeroContext)] }

/-- Claim C3 counterexample: on a valid handle whose initialized flag is
false, nif_stop_server does not fail with not_initialized: it returns ok
and still invokes the underlying Server Shutdown, because the source
checks the initialized flag only in nif_start_server. -/
theorem C3_counterexample :
    findCtx c3UninitState.contexts 0 = some zeroContext ∧
    zeroContext.initialized = false ∧
    (nif_stop_server c3UninitState 0).2 = Except.ok () ∧
    (nif_stop_server c3UninitState 0).1.sdkCalls = [SdkCall.serverShutdown] := by
  decide

/-- Claim C3 amended: start is gated on the initialized flag, failing with
not_initialized and leaving the state untouched when it is false, and
proceeding into the stack when it is true; stop performs no initialized
check at all: for every live handle it returns ok and invokes Server
Shutdown, initialized or not. -/
theorem C3_amended (s : NifState) (i : Nat) (c : MatterContext)
    (hc : findCtx s.contexts i = some c) :
    (c.initialized = false →
      nif_start_server s i = (s, Except.error NifErr.not_initialized)) ∧
    (c.initialized = true →
      nif_start_server s i
        = ({ s with sdkCalls := SdkCall.startEventLoopTask :: SdkCall.serverInit :: s.sdkCalls },
           Except.ok ())) ∧
    nif_stop_server s i
      = ({ s with sdkCalls := SdkCall.serverShutdown :: s.sdkCalls }, Except.ok ()) := by
  refine ⟨fun hff => ?_, fun htt => ?_, ?_⟩
  · simp [nif_start_server, hc, hff]
  · simp [nif_start_server, hc, htt]
  · simp [nif_stop_server, hc]

theorem C3_amended_witness :
    findCtx c3UninitState.contexts 0 = some zeroContext ∧
    ((zeroContext.initialized = false →
       nif_start_server c3UninitState 0
         = (c3UninitState, Except.error NifErr.not_initialized)) ∧
     (zeroContext.initialized = true →
       nif_start_server c3UninitState 0
         = ({ c3UninitState with
               sdkCalls := SdkCall.startEventLoopTask :: SdkCall.serverInit
                 :: c3UninitState.sdkCalls },
            Except.ok ())) ∧
     nif_stop_server c3UninitState 0
       = ({ c3UninitState with sdkCalls := SdkCall.serverShutdown :: c3UninitState.sdkCalls },
          Except.ok ())) :=
  ⟨by decide, C3_amended c3UninitState 0 zeroContext (by decide)⟩

/-! Claim C6. -/

/-- Number of SDK stack shutdowns performed so far. -/
def countStackShutdown (s : NifState) : Nat :=
  (s.sdkCalls.filter (fun c => c == SdkCall.stackShutdown)).length

/-- The C6 scenario: A acquires (id 0, owner), B acquires (id 1,
non-owner), B releases, then A releases. -/
def c6Ops : List LifeOp :=
  [LifeOp.acquire, LifeOp.acquire, LifeOp.release 1, LifeOp.release 0]

/-- Claim C6: in the scenario where A acquires (owner), B acquires
(non-owner, ref_count 2), B releases (ref_count 1, no shutdown), then A
releases (ref_count 0): the stack shutdown happens exactly once over the
whole sequence and only at A's release, never at B's. -/
theorem C6_owner_shutdown_once :
    validOps initState c6Ops = true ∧
    (findCtx (runOps initState [LifeOp.acquire, LifeOp.acquire]).contexts 0).map
        MatterContext.is_owner = some true ∧
    (findCtx (runOps initState [LifeOp.acquire, LifeOp.acquire]).contexts 1).map
        MatterContext.is_owner = some false ∧
    (runOps initState [LifeOp.acquire, LifeOp.acquire]).singleton.ref_count = 2 ∧
    countStackShutdown
      (runOps initState [LifeOp.acquire, LifeOp.acquire, LifeOp.release 1]) = 0 ∧
    (runOps initState [LifeOp.acquire, LifeOp.acquire, LifeOp.release 1]).singleton.ref_count
      = 1 ∧
    (runOps initState
      [LifeOp.acquire, LifeOp.acquire, LifeOp.release 1]).singleton.sdk_initialized = true ∧
    countStackShutdown (runOps initState c6Ops) = 1 ∧
    (runOps initState c6Ops).singleton.ref_count = 0 ∧
    (runOps initState c6Ops).singleton.sdk_initialized = false := by
  decide

end MatterNif

namespace MatterNif

/-! Equation lemmas for the driver operations under a known listener. -/

theorem ScanNetworks_eq (s : NifState) (p token : Nat)
    (hl : get_listener_info s = some p) :
    ScanNetworks s token
      = ({ s with mpScanCallback := some token, msgs := Msg.scan_networks p :: s.msgs },
         Except.ok ()) := by
  unfold ScanNetworks
  rw [hl]

theorem ConnectNetwork_eq (s : NifState) (p token : Nat) (ssid : List Nat)
    (hl : get_listener_info s = some p) :
    ConnectNetwork s ssid token
      = ({ s with
            mpConnectCallback := some token,
            msgs := Msg.connect_network p ssid s.network.credentials :: s.msgs },
         Except.ok ()) := by
  unfold ConnectNetwork
  rw [hl]

theorem AddOrUpdateNetwork_eq (s : NifState) (p : Nat) (ssid creds : List Nat)
    (hl : get_listener_info s = some p) :
    AddOrUpdateNetwork s ssid creds
      = ({ s with
            network := { ssid := ssid.take 32, credentials := creds.take 64, configured := true },
            msgs := Msg.add_network p ssid creds :: s.msgs },
         Except.ok ()) := by
  have h1 : get_listener_info { s with
      network := { ssid := ssid.take 32, credentials := creds.take 64, configured := true } }
      = some p :=
    (get_listener_info_network s _).trans hl
  unfold AddOrUpdateNetwork
  simp only [h1]

theorem nif_wifi_scan_result_eq (s : NifState) (i : Nat) (st : Int)
    (c : MatterContext) (t : Nat)
    (hc : findCtx s.contexts i = some c) (hp : s.mpScanCallback = some t) :
    nif_wifi_scan_result s i st
      = ({ s with
            sdkCalls := SdkCall.scanOnFinished t (st == 0) :: s.sdkCalls,
            mpScanCallback := none },
         Except.ok ()) := by
  unfold nif_wifi_scan_result
  rw [hc, hp]

/-! Claim C4. -/

/-- Claim C4: with a listener registered, a second scan request issued
while one is pending silently replaces the pending token; a single resolve
then fires the second request's callback exactly once and the first
request's callback is never invoked; a resolve with no pending token is a
silent no-op returning ok; and after any resolve the pending slot is
cleared. -/
theorem C4_scan_token_replacement (s : NifState) (i p t1 t2 : Nat) (st : Int)
    (c : MatterContext)
    (hl : get_listener_info s = some p)
    (hc : findCtx s.contexts i = some c) :
    (nif_wifi_scan_result s i st).1.mpScanCallback = none ∧
    (s.mpScanCallback = none → nif_wifi_scan_result s i st = (s, Except.ok ())) ∧
    (nif_wifi_scan_result (ScanNetworks (ScanNetworks s t1).1 t2).1 i st).2 = Except.ok () ∧
    (nif_wifi_scan_result (ScanNetworks (ScanNetworks s t1).1 t2).1 i st).1.sdkCalls
      = SdkCall.scanOnFinished t2 (st == 0) :: s.sdkCalls ∧
    (∀ b : Bool, t1 ≠ t2 →
      SdkCall.scanOnFinished t1 b
          ∈ (nif_wifi_scan_result (ScanNetworks (ScanNetworks s t1).1 t2).1 i st).1.sdkCalls →
      SdkCall.scanOnFinished t1 b ∈ s.sdkCalls) := by
  have hs1 := ScanNetworks_eq s p t1 hl
  have hl1 : get_listener_info (ScanNetworks s t1).1 = some p := by
    rw [hs1]
    exact (get_listener_info_congr _ s rfl rfl).trans hl
  have hs2 := ScanNetworks_eq (ScanNetworks s t1).1 p t2 hl1
  have hc2 : findCtx (ScanNetworks (ScanNetworks s t1).1 t2).1.contexts i = some c := by
    rw [hs2, hs1]
    exact hc
  have hp2 : (ScanNetworks (ScanNetworks s t1).1 t2).1.mpScanCallback = some t2 := by
    rw [hs2]
  have hres := nif_wifi_scan_result_eq (ScanNetworks (ScanNetworks s t1).1 t2).1 i st c t2 hc2 hp2
  refine ⟨?_, ?_, ?_, ?_, ?_⟩
  · cases hp : s.mpScanCallback with
    | none => simp [nif_wifi_scan_result, hc, hp]
    | some t => rw [nif_wifi_scan_result_eq s i st c t hc hp]
  · intro hnone
    simp [nif_wifi_scan_result, hc, hnone]
  · rw [hres]
  · rw [hres, hs2, hs1]
  · intro b hne hmem
    rw [hres, hs2, hs1] at hmem
    simp only [List.mem_cons] at hmem
    rcases hmem with heq | hmem
    · injection heq with h1 h2
      exact absurd h1 hne
    · exact hmem

theorem C4_scan_token_replacement_witness :
    get_listener_info listenerState = some 9 ∧
    findCtx listenerState.contexts 0 = some listenerCtx ∧
    ((nif_wifi_scan_result listenerState 0 0).1.mpScanCallback = none ∧
     (listenerState.mpScanCallback = none →
       nif_wifi_scan_result listenerState 0 0 = (listenerState, Except.ok ())) ∧
     (nif_wifi_scan_result (ScanNetworks (ScanNetworks listenerState 1).1 2).1 0 0).2
       = Except.ok () ∧
     (nif_wifi_scan_result (ScanNetworks (ScanNetworks listenerState 1).1 2).1 0 0).1.sdkCalls
       = SdkCall.scanOnFinished 2 ((0 : Int) == 0) :: listenerState.sdkCalls ∧
     (∀ b : Bool, 1 ≠ 2 →
       SdkCall.scanOnFinished 1 b
           ∈ (nif_wifi_scan_result
               (ScanNetworks (ScanNetworks listenerState 1).1 2).1 0 0).1.sdkCalls →
       SdkCall.scanOnFinished 1 b ∈ listenerState.sdkCalls)) :=
  ⟨by decide, by decide,
   C4_scan_token_replacement listenerState 0 9 1 2 0 listenerCtx (by decide) (by decide)⟩

/-! Claim C5. -/

/-- Claim C5: with a listener registered, store_network (AddOrUpdateNetwork)
copies the ssid and credentials into the fixed 32 and 64 byte buffers,
truncating longer input without error, and overwrites the single stored
slot; a subsequent connect request emits exactly one connect_network event
whose credentials equal the stored (most recently written) credentials. -/
theorem C5_connect_uses_stored_credentials (s : NifState) (p token : Nat)
    (ssid creds ssid2 : List Nat)
    (hl : get_listener_info s = some p) :
    (AddOrUpdateNetwork s ssid creds).2 = Except.ok () ∧
    (AddOrUpdateNetwork s ssid creds).1.network
      = { ssid := ssid.take 32, credentials := creds.take 64, configured := true } ∧
    (ConnectNetwork (AddOrUpdateNetwork s ssid creds).1 ssid2 token).2 = Except.ok () ∧
    (ConnectNetwork (AddOrUpdateNetwork s ssid creds).1 ssid2 token).1.msgs
      = Msg.connect_network p ssid2 (creds.take 64)
          :: (AddOrUpdateNetwork s ssid creds).1.msgs := by
  have ha := AddOrUpdateNetwork_eq s p ssid creds hl
  have hl2 : get_listener_info (AddOrUpdateNetwork s ssid creds).1 = some p := by
    rw [ha]
    exact (get_listener_info_congr _ s rfl rfl).trans hl
  have hcn := ConnectNetwork_eq (AddOrUpdateNetwork s ssid creds).1 p token ssid2 hl2
  refine ⟨?_, ?_, ?_, ?_⟩
  · rw [ha]
  · rw [ha]
  · rw [hcn]
  · rw [hcn]
    rw [ha]

theorem C5_connect_uses_stored_credentials_witness :
    get_listener_info listenerState = some 9 ∧
    ((AddOrUpdateNetwork listenerState [1, 2] (List.replicate 65 7)).2 = Except.ok () ∧
     (AddOrUpdateNetwork listenerState [1, 2] (List.replicate 65 7)).1.network
       = { ssid := ([1, 2] : List Nat).take 32,
           credentials := (List.replicate 65 7).take 64, configured := true } ∧
     (ConnectNetwork (AddOrUpdateNetwork listenerState [1, 2] (List.replicate 65 7)).1
        [3] 4).2 = Except.ok () ∧
     (ConnectNetwork (AddOrUpdateNetwork listenerState [1, 2] (List.replicate 65 7)).1
        [3] 4).1.msgs
       = Msg.connect_network 9 [3] ((List.replicate 65 7).take 64)
           :: (AddOrUpdateNetwork listenerState [1, 2] (List.replicate 65 7)).1.msgs) :=
  ⟨by decide,
   C5_connect_uses_stored_credentials listenerState 9 4 [1, 2] (List.replicate 65 7) [3]
     (by decide)⟩

/-! Claim C7. -/

/-- Claim C7: with no listener registered, scan and connect requests fail
with CHIP_ERROR_INCORRECT_STATE (the NoListener failure) and leave the
whole state, including the pending token slots, unchanged; an attribute
change notification is instead dropped silently, also leaving the state
unchanged, and has no error channel at all (the callback returns void). -/
theorem C7_no_listener_asymmetry (s : NifState) (token ep cl aid ty sz : Nat)
    (ssid bytes : List Nat)
    (hn : get_listener_info s = none) :
    ScanNetworks s token = (s, Except.error ChipErr.incorrectState) ∧
    ConnectNetwork s ssid token = (s, Except.error ChipErr.incorrectState) ∧
    MatterPostAttributeChangeCallback s ep cl aid ty sz bytes = s := by
  refine ⟨?_, ?_, ?_⟩
  · unfold ScanNetworks
    rw [hn]
  · unfold ConnectNetwork
    rw [hn]
  · unfold MatterPostAttributeChangeCallback
    rw [hn]

theorem C7_no_listener_asymmetry_witness :
    get_listener_info initState = none ∧
    (ScanNetworks initState 3 = (initState, Except.error ChipErr.incorrectState) ∧
     ConnectNetwork initState [1] 3 = (initState, Except.error ChipErr.incorrectState) ∧
     MatterPostAttributeChangeCallback initState 1 2 3 16 1 [1] = initState) :=
  ⟨by decide, C7_no_listener_asymmetry initState 3 1 2 3 16 1 [1] [1] (by decide)⟩

end MatterNif

namespace MatterNif

/-! Claim C8. -/

/-- Claim C8: for a live handle and well-typed unsigned ids, both
set_attribute and get_attribute reject any endpoint above 0xFFFF with
invalid_endpoint_id before touching the attribute store (set returns with
the state unchanged so no write is recorded; get rejects for every
possible store), while the boundary endpoint 0xFFFF passes the validation:
set returns ok and get never reports invalid_endpoint_id or
invalid_args. -/
theorem C8_endpoint_range_check (store : Nat → Nat → Nat → Option (Nat × List Nat))
    (s : NifState) (i : Nat) (c : MatterContext)
    (endpoint_id cluster_id attribute_id : Int) (v : ErlTerm)
    (hc : findCtx s.contexts i = some c)
    (hep : 65536 ≤ endpoint_id) (hep2 : endpoint_id < 4294967296)
    (hcl : 0 ≤ cluster_id) (hcl2 : cluster_id < 4294967296)
    (hat : 0 ≤ attribute_id) (hat2 : attribute_id < 4294967296) :
    nif_set_attribute s i endpoint_id cluster_id attribute_id v
      = (s, Except.error NifErr.invalid_endpoint_id) ∧
    nif_get_attribute store s i endpoint_id cluster_id attribute_id
      = Except.error NifErr.invalid_endpoint_id ∧
    (nif_set_attribute s i 65535 cluster_id attribute_id v).2 = Except.ok () ∧
    nif_get_attribute store s i 65535 cluster_id attribute_id
      ≠ Except.error NifErr.invalid_endpoint_id ∧
    nif_get_attribute store s i 65535 cluster_id attribute_id
      ≠ Except.error NifErr.invalid_args := by
  have hge : enif_get_uint endpoint_id = some endpoint_id.toNat := by
    unfold enif_get_uint
    rw [if_pos ⟨by omega, hep2⟩]
  have hgc : enif_get_uint cluster_id = some cluster_id.toNat := by
    unfold enif_get_uint
    rw [if_pos ⟨hcl, hcl2⟩]
  have hga : enif_get_uint attribute_id = some attribute_id.toNat := by
    unfold enif_get_uint
    rw [if_pos ⟨by omega, by omega⟩]
  have h65 : enif_get_uint 65535 = some 65535 := by decide
  have hgt : endpoint_id.toNat > 65535 := by omega
  have h65n : ¬ (65535 : Nat) > 65535 := by decide
  refine ⟨?_, ?_, ?_, ?_, ?_⟩
  · unfold nif_set_attribute
    simp only [hc, hge, hgc, hga]
    rw [if_pos hgt]
  · unfold nif_get_attribute
    simp only [hc, hge, hgc, hga]
    rw [if_pos hgt]
  · unfold nif_set_attribute
    simp only [hc, h65, hgc, hga]
    rw [if_neg h65n]
    cases v with
    | atom a =>
      by_cases hlen : a.length ≤ 15
      · simp [hlen]
      · simp [hlen]
    | int n =>
      cases hgn : enif_get_uint n with
      | some m => simp [enif_get_uint_term, hgn]
      | none => simp [enif_get_uint_term, hgn]
    | binary bs => rfl
    | other => rfl
  · unfold nif_get_attribute
    simp only [hc, h65, hgc, hga]
    rw [if_neg h65n]
    cases hst : store 65535 cluster_id.toNat attribute_id.toNat with
    | none => simp
    | some tb =>
      obtain ⟨ty, bytes⟩ := tb
      dsimp only
      split_ifs <;> simp
  · unfold nif_get_attribute
    simp only [hc, h65, hgc, hga]
    rw [if_neg h65n]
    cases hst : store 65535 cluster_id.toNat attribute_id.toNat with
    | none => simp
    | some tb =>
      obtain ⟨ty, bytes⟩ := tb
      dsimp only
      split_ifs <;> simp

theorem C8_endpoint_range_check_witness :
    findCtx listenerState.contexts 0 = some listenerCtx ∧
    ((65536 : Int) ≤ 65536 ∧ (65536 : Int) < 4294967296 ∧
     (0 : Int) ≤ 1 ∧ (1 : Int) < 4294967296) ∧
    (nif_set_attribute listenerState 0 65536 1 1 ErlTerm.other
       = (listenerState, Except.error NifErr.invalid_endpoint_id) ∧
     nif_get_attribute (fun _ _ _ => none) listenerState 0 65536 1 1
       = Except.error NifErr.invalid_endpoint_id ∧
     (nif_set_attribute listenerState 0 65535 1 1 ErlTerm.other).2 = Except.ok () ∧
     nif_get_attribute (fun _ _ _ => none) listenerState 0 65535 1 1
       ≠ Except.error NifErr.invalid_endpoint_id ∧
     nif_get_attribute (fun _ _ _ => none) listenerState 0 65535 1 1
       ≠ Except.error NifErr.invalid_args) :=
  ⟨by decide, by decide,
   C8_endpoint_range_check (fun _ _ _ => none) listenerState 0 listenerCtx 65536 1 1
     ErlTerm.other (by decide) (by decide) (by decide) (by decide) (by decide)
     (by decide) (by decide)⟩

/-! Claim C9. -/

/-- Claim C9 counterexample: the atom on is neither a boolean atom nor an
integer, so by the claim it should be silently ignored; instead
nif_set_attribute takes the atom branch for every short atom and writes a
ZCL boolean with value byte zero (strcmp with true failing) to the
attribute store.  The claimed value trichotomy is therefore wrong about
non-boolean atoms. -/
theorem C9_counterexample :
    ErlTerm.atom "on" ≠ ErlTerm.atom "true" ∧
    ErlTerm.atom "on" ≠ ErlTerm.atom "false" ∧
    nif_set_attribute listenerState 0 1 6 0 (ErlTerm.atom "on")
      = ({ listenerState with
            sdkCalls := [SdkCall.writeAttribute 1 6 0 ZCL_BOOLEAN_ATTRIBUTE_TYPE 0] },
         Except.ok ()) := by
  decide

/-- Claim C9 amended: for a live handle, well-typed unsigned ids and an
endpoint within range, set_attribute returns ok for every value; an atom
of at most 15 characters (any atom, not only a boolean one) is written as
a ZCL boolean whose byte is one exactly when the atom is true; an integer
in the unsigned 32-bit range is written modulo 256 as ZCL int8u; every
other value (a longer atom, an integer out of unsigned 32-bit range, or
any non-atom non-integer term) is silently ignored with no write; and
invalid_args never arises from the value argument. -/
theorem C9_amended (s : NifState) (i : Nat) (c : MatterContext)
    (endpoint_id cluster_id attribute_id : Int) (v : ErlTerm)
    (hc : findCtx s.contexts i = some c)
    (hep : 0 ≤ endpoint_id) (hepw : endpoint_id < 4294967296)
    (hep2 : endpoint_id.toNat ≤ 65535)
    (hcl : 0 ≤ cluster_id) (hcl2 : cluster_id < 4294967296)
    (hat : 0 ≤ attribute_id) (hat2 : attribute_id < 4294967296) :
    (nif_set_attribute s i endpoint_id cluster_id attribute_id v).2 = Except.ok () ∧
    (∀ a, v = ErlTerm.atom a → a.length ≤ 15 →
      (nif_set_attribute s i endpoint_id cluster_id attribute_id v).1.sdkCalls
        = SdkCall.writeAttribute endpoint_id.toNat cluster_id.toNat attribute_id.toNat
            ZCL_BOOLEAN_ATTRIBUTE_TYPE (if a = "true" then 1 else 0) :: s.sdkCalls) ∧
    (∀ n : Int, v = ErlTerm.int n → 0 ≤ n → n < 4294967296 →
      (nif_set_attribute s i endpoint_id cluster_id attribute_id v).1.sdkCalls
        = SdkCall.writeAttribute endpoint_id.toNat cluster_id.toNat attribute_id.toNat
            ZCL_INT8U_ATTRIBUTE_TYPE (n.toNat % 256) :: s.sdkCalls) ∧
    ((match v with
      | ErlTerm.atom a => 15 < a.length
      | ErlTerm.int n => n < 0 ∨ 4294967296 ≤ n
      | _ => True) →
      (nif_set_attribute s i endpoint_id cluster_id attribute_id v).1 = s) := by
  have hge : enif_get_uint endpoint_id = some endpoint_id.toNat := by
    unfold enif_get_uint
    rw [if_pos ⟨hep, hepw⟩]
  have hgc : enif_get_uint cluster_id = some cluster_id.toNat := by
    unfold enif_get_uint
    rw [if_pos ⟨hcl, hcl2⟩]
  have hga : enif_get_uint attribute_id = some attribute_id.toNat := by
    unfold enif_get_uint
    rw [if_pos ⟨hat, hat2⟩]
  have hle : ¬ endpoint_id.toNat > 65535 := by omega
  refine ⟨?_, ?_, ?_, ?_⟩
  · unfold nif_set_attribute
    simp only [hc, hge, hgc, hga]
    rw [if_neg hle]
    cases v with
    | atom a =>
      by_cases hlen : a.length ≤ 15
      · simp [hlen]
      · simp [hlen]
    | int n =>
      cases hgn : enif_get_uint n with
      | some m => simp [enif_get_uint_term, hgn]
      | none => simp [enif_get_uint_term, hgn]
    | binary bs => rfl
    | other => rfl
  · intro a hv hlen
    subst hv
    unfold nif_set_attribute
    simp only [hc, hge, hgc, hga]
    rw [if_neg hle]
    simp [hlen]
  · intro n hv hn hn2
    subst hv
    have hgn : enif_get_uint n = some n.toNat := by
      unfold enif_get_uint
      rw [if_pos ⟨hn, hn2⟩]
    unfold nif_set_attribute
    simp only [hc, hge, hgc, hga]
    rw [if_neg hle]
    simp [enif_get_uint_term, hgn]
  · intro hother
    unfold nif_set_attribute
    simp only [hc, hge, hgc, hga]
    rw [if_neg hle]
    cases v with
    | atom a =>
      simp only at hother
      simp [show ¬ a.length ≤ 15 by omega]
    | int n =>
      have hgn : enif_get_uint n = none := by
        unfold enif_get_uint
        simp only at hother
        rw [if_neg (by rcases hother with h | h <;> omega : ¬ (0 ≤ n ∧ n < 4294967296))]
      simp [enif_get_uint_term, hgn]
    | binary bs => rfl
    | other => rfl

theorem C9_amended_witness :
    findCtx listenerState.contexts 0 = some listenerCtx ∧
    (((nif_set_attribute listenerState 0 65535 1 1 (ErlTerm.int 300)).2 = Except.ok ()) ∧
     (∀ a, ErlTerm.int 300 = ErlTerm.atom a → a.length ≤ 15 →
       (nif_set_attribute listenerState 0 65535 1 1 (ErlTerm.int 300)).1.sdkCalls
         = SdkCall.writeAttribute (65535 : Int).toNat (1 : Int).toNat (1 : Int).toNat
             ZCL_BOOLEAN_ATTRIBUTE_TYPE (if a = "true" then 1 else 0)
               :: listenerState.sdkCalls) ∧
     (∀ n : Int, ErlTerm.int 300 = ErlTerm.int n → 0 ≤ n → n < 4294967296 →
       (nif_set_attribute listenerState 0 65535 1 1 (ErlTerm.int 300)).1.sdkCalls
         = SdkCall.writeAttribute (65535 : Int).toNat (1 : Int).toNat (1 : Int).toNat
             ZCL_INT8U_ATTRIBUTE_TYPE (n.toNat % 256) :: listenerState.sdkCalls) ∧
     ((match ErlTerm.int 300 with
       | ErlTerm.atom a => 15 < a.length
       | ErlTerm.int n => n < 0 ∨ 4294967296 ≤ n
       | _ => True) →
       (nif_set_attribute listenerState 0 65535 1 1 (ErlTerm.int 300)).1 = listenerState)) :=
  ⟨by decide,
   C9_amended listenerState 0 listenerCtx 65535 1 1 (ErlTerm.int 300) (by decide)
     (by decide) (by decide) (by decide) (by decide) (by decide) (by decide) (by decide)⟩

/-! Claim C10. -/

/-- Claim C10 counterexample: an ssid of 33 bytes (over the 32-byte limit)
with 1-byte credentials satisfies the claim's hypothesis, yet the later
connect_network event carries exactly the credentials previously reported
in the add_network event: only over-long credentials, not an over-long
ssid, can make the two differ, because the connect event takes its ssid
from the request and only its credentials from the stored slot. -/
theorem C10_counterexample :
    32 < (List.replicate 33 1 : List Nat).length ∧
    (AddOrUpdateNetwork listenerState (List.replicate 33 1) [7]).1.msgs
      = [Msg.add_network 9 (List.replicate 33 1) [7]] ∧
    (ConnectNetwork (AddOrUpdateNetwork listenerState (List.replicate 33 1) [7]).1
       [3] 4).1.msgs
      = [Msg.connect_network 9 [3] [7], Msg.add_network 9 (List.replicate 33 1) [7]] := by
  decide

/-- Claim C10 amended: with a listener registered, the add_network event
always carries the full untruncated ssid and credentials while the stored
slot keeps only the 32- and 64-byte prefixes; a later connect_network
event carries the stored credentials, and these differ from the ones
reported in add_network exactly when the credentials themselves exceeded
64 bytes (an over-long ssid alone does not make them differ). -/
theorem C10_amended (s : NifState) (p token : Nat) (ssid creds ssid2 : List Nat)
    (hl : get_listener_info s = some p) :
    (AddOrUpdateNetwork s ssid creds).1.msgs = Msg.add_network p ssid creds :: s.msgs ∧
    (AddOrUpdateNetwork s ssid creds).1.network.ssid = ssid.take 32 ∧
    (AddOrUpdateNetwork s ssid creds).1.network.credentials = creds.take 64 ∧
    (ConnectNetwork (AddOrUpdateNetwork s ssid creds).1 ssid2 token).1.msgs
      = Msg.connect_network p ssid2 (creds.take 64)
          :: (AddOrUpdateNetwork s ssid creds).1.msgs ∧
    (64 < creds.length → creds.take 64 ≠ creds) := by
  have ha := AddOrUpdateNetwork_eq s p ssid creds hl
  have hl2 : get_listener_info (AddOrUpdateNetwork s ssid creds).1 = some p := by
    rw [ha]
    exact (get_listener_info_congr _ s rfl rfl).trans hl
  have hcn := ConnectNetwork_eq (AddOrUpdateNetwork s ssid creds).1 p token ssid2 hl2
  refine ⟨?_, ?_, ?_, ?_, ?_⟩
  · rw [ha]
  · rw [ha]
  · rw [ha]
  · rw [hcn]
    rw [ha]
  · intro h64 heq
    have hlen := congrArg List.length heq
    rw [List.length_take] at hlen
    omega

theorem C10_amended_witness :
    get_listener_info listenerState = some 9 ∧
    ((AddOrUpdateNetwork listenerState [1] (List.replicate 65 7)).1.msgs
       = Msg.add_network 9 [1] (List.replicate 65 7) :: listenerState.msgs ∧
     (AddOrUpdateNetwork listenerState [1] (List.replicate 65 7)).1.network.ssid
       = ([1] : List Nat).take 32 ∧
     (AddOrUpdateNetwork listenerState [1] (List.replicate 65 7)).1.network.credentials
       = (List.replicate 65 7).take 64 ∧
     (ConnectNetwork (AddOrUpdateNetwork listenerState [1] (List.replicate 65 7)).1
        [3] 4).1.msgs
       = Msg.connect_network 9 [3] ((List.replicate 65 7).take 64)
           :: (AddOrUpdateNetwork listenerState [1] (List.replicate 65 7)).1.msgs ∧
     (64 < (List.replicate 65 7 : List Nat).length →
       (List.replicate 65 7 : List Nat).take 64 ≠ List.replicate 65 7)) :=
  ⟨by decide,
   C10_amended listenerState 9 4 [1] (List.replicate 65 7) [3] (by decide)⟩

end MatterNif
